import Mathlib

/-!
# A verification model of the pos-report-system pipeline

Shallow embedding of the restaurant reporting pipeline: backup discovery and
table extraction (src/extract.py), module-level configuration (src/config.py)
and the PDF report renderer (src/report.py).  Money amounts are modelled as
exact rationals; Python exceptions become an explicit error type and fallible
functions return `Except`.  The metrics aggregator (analyze.py) is referenced
by the sources but its file is not part of the provided code, so its metrics
are modelled from the specification's wording; each such definition says so in
its doc comment.
-/

/-- Python-exception kinds the modelled code can raise. -/
inductive PyError where
  | fileNotFound (msg : String)
  | runtimeError (msg : String)
  | calledProcessError (code : Nat)
  | parserError (msg : String)
  | attributeError (name : String)
  deriving DecidableEq, Repr

/-- A parsed calendar date, the result of coercing a raw date string:
what the pipeline uses of a pandas Timestamp (year and month, with the
day kept for completeness). -/
structure PDate where
  year : Nat
  month : Nat
  day : Nat
  deriving DecidableEq, Repr

/-- Day-first date parsing as the library call
pd.to_datetime(col, dayfirst=True, errors="coerce") behaves on the
slash-separated numeric dates of this data: the first field is the day,
the second the month, the third the year; a malformed or out-of-range
date is coerced to `none` (pandas NaT) instead of raising. -/
def parseDayFirst (s : String) : Option PDate :=
  match (s.splitOn "/").map String.toNat? with
  | [some d, some m, some y] =>
      if 1 ≤ d ∧ d ≤ 31 ∧ 1 ≤ m ∧ m ≤ 12 then some ⟨y, m, d⟩ else none
  | _ => none

/-- One row of the INVOICE table (src/extract.py): a raw date string plus the
columns the pipeline consumes (payment method, service type, VAT, amount). -/
structure InvoiceRow where
  DATE : String
  PAYMENT : String
  SERVICE : String
  VAT : ℚ
  AMOUNT : ℚ
  deriving DecidableEq, Repr

/-- One row of the SALE table (src/extract.py, column names as report.py
spells them, including the source's CATOGERY spelling). -/
structure SaleRow where
  DATE : String
  ITEMS : String
  CATOGERY : String
  QTY : ℚ
  AMOUNT : ℚ
  PROFIT : ℚ
  deriving DecidableEq, Repr

/-- The month mask of src/extract.py lines 47 and 54:
(df.DATE.dt.year == year) & (df.DATE.dt.month == month) after the coercing
parse; a NaT date compares false on both conjuncts. -/
def monthMatch (y m : Nat) (od : Option PDate) : Bool :=
  match od with
  | some d => d.year == y && d.month == m
  | none => false

/-- extract_invoices (src/extract.py lines 42-48) applied to an already
exported INVOICE table: coerce the DATE column day-first, keep the rows of
the target (year, month). -/
def extract_invoices (table : List InvoiceRow) (y m : Nat) : List InvoiceRow :=
  table.filter (fun r => monthMatch y m (parseDayFirst r.DATE))

/-- extract_sales (src/extract.py lines 50-55) applied to an already exported
SALE table. -/
def extract_sales (table : List SaleRow) (y m : Nat) : List SaleRow :=
  table.filter (fun r => monthMatch y m (parseDayFirst r.DATE))

/-- One immediate entry of the backup base directory, as the locator reads it:
its name, whether it is a directory, its modification time. -/
structure DirEntry where
  name : String
  isDir : Bool
  mtime : Nat
  deriving DecidableEq, Repr

/-- The filesystem state find_latest_backup reads: whether the base path
exists and the list of its immediate entries, in iteration order. -/
structure BackupFS where
  baseExists : Bool
  entries : List DirEntry
  deriving Repr

/-- Python's max(folders, key=mtime): fold keeping the current best, replaced
only on a strictly larger key, so the first of several maxima wins. -/
def maxByMtime (f : DirEntry) (rest : List DirEntry) : DirEntry :=
  rest.foldl (fun best x => if best.mtime < x.mtime then x else best) f

/-- find_latest_backup (src/extract.py lines 12-25): error when the base path
is missing; keep the entries that are directories whose upper-cased name
starts with "BACKUP"; error when none remain; otherwise pick the one with the
latest modification time.  A pure function of the filesystem snapshot: the
source performs only filesystem reads. -/
def find_latest_backup (fs : BackupFS) : Except PyError DirEntry :=
  if !fs.baseExists then
    .error (.fileNotFound "Backup path not found")
  else
    match fs.entries.filter (fun f => f.isDir && f.name.toUpper.startsWith "BACKUP") with
    | [] => .error (.fileNotFound "No backup folders found")
    | f :: rest => .ok (maxByMtime f rest)

/-- The outcome of invoking the external mdb-export process: the executable
may be absent (subprocess raises FileNotFoundError), or it runs and exits
with a status code and captured standard output. -/
inductive RunResult where
  | toolMissing
  | exited (code : Nat) (out : String)
  deriving Repr

/-- A parsed delimited table: a header row of column names and the data
rows. -/
structure RawTable where
  header : List String
  rows : List (List String)
  deriving DecidableEq, Repr

/-- export_table (src/extract.py lines 27-40).  subprocess.check_output
raises FileNotFoundError when the executable is absent — caught and re-raised
as RuntimeError — and CalledProcessError on a non-zero exit status, which the
source does not catch; pd.read_csv (modelled by the readCsv argument, `none`
for unparseable text) raises a parser error on bad output.  On success the
parsed table is returned. -/
def export_table (run : RunResult) (readCsv : String → Option RawTable) :
    Except PyError RawTable :=
  match run with
  | .toolMissing =>
      .error (.runtimeError "mdb-export not found. Install mdbtools or ensure mdb-export.exe is in PATH.")
  | .exited code out =>
      if code ≠ 0 then .error (.calledProcessError code)
      else
        match readCsv out with
        | none => .error (.parserError "unparseable output")
        | some t => .ok t

/-- The specification's ToolMissingError kind, realised by the code as the
RuntimeError export_table raises when the export utility cannot be located. -/
def isToolMissingError : PyError → Bool
  | .runtimeError _ => true
  | _ => false

/-- The specification's ExportError kind, realised by the code as the errors
escaping export_table on a failed run: CalledProcessError for a non-zero exit
status, the CSV reader's parser error for unparseable output. -/
def isExportError : PyError → Bool
  | .calledProcessError _ => true
  | .parserError _ => true
  | _ => false

/-- The module-level attributes src/config.py defines, with the values its
defaults give (the ini files are absent from the repository, so every
`.get` falls back).  TOP_ITEMS_COUNT is not among them. -/
def configAttrs : List (String × String) :=
  [("BACKUP_BASE_PATH", "./backups"),
   ("DAILY_REPORTS_PATH", "./reports/daily"),
   ("MONTHLY_REPORTS_PATH", "./reports/monthly"),
   ("MDB_FILENAME", "resturant.mdb"),
   ("RESTAURANT_NAME", "TORNADO RESTAURANT"),
   ("REPORT_TITLE", "Sales Report"),
   ("EMAIL_FROM", "example@gmail.com"),
   ("EMAIL_PASSWORD", ""),
   ("EMAIL_TO", ""),
   ("SMTP_SERVER", "smtp.gmail.com"),
   ("SMTP_PORT", "587")]

/-- Python attribute access on the config module: the attribute's value when
config.py defines it, AttributeError otherwise. -/
def getattrConfig (name : String) : Except PyError String :=
  match configAttrs.find? (fun p => p.1 == name) with
  | some p => .ok p.2
  | none => .error (.attributeError name)

/-- One table cell of a rendered report section.  The source formats cells as
strings (f-strings with thousands separators and fixed decimals); the model
keeps the underlying value, since the claims are about which values appear,
not about Python's number formatting. -/
inductive Cell where
  | s (v : String)
  | q (v : ℚ)
  | n (v : Nat)
  deriving DecidableEq, Repr

/-- A payment or service breakdown as the aggregator hands it to the
renderer: insertion-ordered mappings of summed amount and count per key. -/
structure Breakdown where
  amounts : List (String × ℚ)
  counts : List (String × Nat)
  deriving DecidableEq, Repr

/-- The invoice-side metrics of Report Data, as report.py reads them. -/
structure InvMetrics where
  total_revenue : ℚ
  total_transactions : Nat
  average_transaction : ℚ
  total_vat : ℚ
  payment_breakdown : Breakdown
  service_breakdown : Breakdown
  deriving DecidableEq, Repr

/-- One aggregated top-item entry, with the keys report.py reads
(ITEMS, QTY, AMOUNT, PROFIT). -/
structure ItemAgg where
  ITEMS : String
  QTY : ℚ
  AMOUNT : ℚ
  PROFIT : ℚ
  deriving DecidableEq, Repr

/-- One aggregated category entry, with the keys report.py reads
(the source's CATOGERY spelling included). -/
structure CatAgg where
  CATOGERY : String
  QTY : ℚ
  AMOUNT : ℚ
  PROFIT : ℚ
  deriving DecidableEq, Repr

/-- The sale-side metrics of Report Data. -/
structure SalesMetrics where
  top_items : List ItemAgg
  category_performance : List CatAgg
  deriving DecidableEq, Repr

/-- Report Data, the handoff object between aggregator and renderer.
`growth = none` models both an absent "growth" key and a None value: the
renderer treats the two alike ("growth" in report_data and ... is not None). -/
structure ReportData where
  invoices : InvMetrics
  sales : SalesMetrics
  growth : Option ℚ
  deriving DecidableEq, Repr

/-- The growth arrow of create_summary_section (src/report.py line 81):
an up arrow only for strictly positive growth, a down arrow otherwise. -/
def growthArrow (g : ℚ) : String := if g > 0 then "↑" else "↓"

/-- The summary_data table of create_summary_section (src/report.py lines
71-82): four fixed metric rows, then the growth row appended only when the
growth key is present and not None.  The growth row keeps the growth value
and its arrow as separate cells. -/
def summary_data (rd : ReportData) : List (List Cell) :=
  [[.s "Total Revenue", .q rd.invoices.total_revenue],
   [.s "Total Transactions", .n rd.invoices.total_transactions],
   [.s "Average Transaction", .q rd.invoices.average_transaction],
   [.s "Total VAT Collected", .q rd.invoices.total_vat]] ++
  (match rd.growth with
   | some g => [[.s "Growth vs Previous Month", .q g, .s (growthArrow g)]]
   | none => [])

/-- The per-row percentage of create_payment_section and
create_service_section (src/report.py lines 124 and 170):
(amount / total_amount * 100) if total_amount > 0 else 0. -/
def percentOfTotal (total amount : ℚ) : ℚ :=
  if total > 0 then amount / total * 100 else 0

/-- Python dict.get(key, 0) on an insertion-ordered count mapping. -/
def lookupCount (counts : List (String × Nat)) (k : String) : Nat :=
  match counts.find? (fun p => p.1 == k) with
  | some p => p.2
  | none => 0

/-- The payment_data table of create_payment_section (src/report.py lines
116-127): a header row, then one row per payment method of the breakdown, in
mapping order, each carrying the method, its count, its amount and its
percentage of total revenue. -/
def payment_data (rd : ReportData) : List (List Cell) :=
  [.s "Payment Method", .s "Transactions", .s "Amount", .s "Percentage"] ::
  rd.invoices.payment_breakdown.amounts.map (fun p =>
    [.s p.1, .n (lookupCount rd.invoices.payment_breakdown.counts p.1),
     .q p.2, .q (percentOfTotal rd.invoices.total_revenue p.2)])

/-- The service_data table of create_service_section (src/report.py lines
162-173), same shape as the payment table over the service breakdown. -/
def service_data (rd : ReportData) : List (List Cell) :=
  [.s "Service Type", .s "Orders", .s "Amount", .s "Percentage"] ::
  rd.invoices.service_breakdown.amounts.map (fun p =>
    [.s p.1, .n (lookupCount rd.invoices.service_breakdown.counts p.1),
     .q p.2, .q (percentOfTotal rd.invoices.total_revenue p.2)])

/-- Pair each element with its position, counting from the given start:
Python's enumerate(xs, start). -/
def withIdx : Nat → List α → List (Nat × α)
  | _, [] => []
  | i, x :: xs => (i, x) :: withIdx (i + 1) xs

/-- The items_data table of create_top_items_section (src/report.py lines
211-222): a header row, then the top items ranked from 1. -/
def items_data (rd : ReportData) : List (List Cell) :=
  [.s "Rank", .s "Item", .s "Qty Sold", .s "Revenue", .s "Profit"] ::
  (withIdx 1 rd.sales.top_items).map (fun p =>
    [.n p.1, .s p.2.ITEMS, .q p.2.QTY, .q p.2.AMOUNT, .q p.2.PROFIT])

/-- create_top_items_section (src/report.py lines 199-248): the section title
reads config.TOP_ITEMS_COUNT before any row is built, so the section fails
with AttributeError when config.py does not define that attribute; otherwise
it yields the items table. -/
def create_top_items_section (rd : ReportData) : Except PyError (List (List Cell)) :=
  match getattrConfig "TOP_ITEMS_COUNT" with
  | .error e => .error e
  | .ok _ => .ok (items_data rd)

/-- The per-category margin of create_category_section (src/report.py line
263): (profit / amount * 100) if amount > 0 else 0. -/
def category_margin (cat : CatAgg) : ℚ :=
  if cat.AMOUNT > 0 then cat.PROFIT / cat.AMOUNT * 100 else 0

/-- The category_data table of create_category_section (src/report.py lines
260-272): a header row, then one row per category with its margin. -/
def category_data (rd : ReportData) : List (List Cell) :=
  [.s "Category", .s "Items Sold", .s "Revenue", .s "Profit", .s "Margin %"] ::
  rd.sales.category_performance.map (fun cat =>
    [.s cat.CATOGERY, .q cat.QTY, .q cat.AMOUNT, .q cat.PROFIT,
     .q (category_margin cat)])

/-- The section tables generate_pdf builds (src/report.py lines 334-343), in
source order; building stops with the exception of the first failing
section.  Only the top-items section can fail (the config attribute read);
every other section is a total computation. -/
def generate_report_tables (rd : ReportData) :
    Except PyError (List (List (List Cell))) :=
  match create_top_items_section rd with
  | .error e => .error e
  | .ok ti =>
      .ok [summary_data rd, payment_data rd, service_data rd, ti,
           category_data rd]

/-- Modelled from the spec: the aggregator's total_revenue (analyze.py is not
among the provided files) — the sum of all invoice amounts. -/
def total_revenue (invs : List InvoiceRow) : ℚ :=
  (invs.map (fun r => r.AMOUNT)).sum

/-- Modelled from the spec: the aggregator's total_transactions — the count
of invoice records. -/
def total_transactions (invs : List InvoiceRow) : Nat :=
  invs.length

/-- Modelled from the spec: the aggregator's average_transaction —
total_revenue / total_transactions, defined as 0 when there are no
transactions, so it is never computed as a division by zero. -/
def average_transaction (invs : List InvoiceRow) : ℚ :=
  if total_transactions invs = 0 then 0
  else total_revenue invs / (total_transactions invs : ℚ)

/-- Modelled from the spec: the aggregator's growth metric — the percentage
change of total_revenue against the preceding month's total_revenue, `none`
when prior-month revenue is unavailable or zero (never a division by zero and
never reported as 0%). -/
def computeGrowth (current : ℚ) (previous : Option ℚ) : Option ℚ :=
  match previous with
  | none => none
  | some p => if p = 0 then none else some ((current - p) / p * 100)

/-- First occurrence of each string, in first-seen order. -/
def dedupFirst : List String → List String
  | [] => []
  | x :: xs => x :: (dedupFirst xs).filter (fun y => y ≠ x)

/-- Modelled from the spec: the distinct item names of a sale record set, in
first-seen order. -/
def distinctItems (sales : List SaleRow) : List String :=
  dedupFirst (sales.map (fun s => s.ITEMS))

/-- The summed quantity of the sale rows bearing one item name. -/
def sumQty (sales : List SaleRow) (x : String) : ℚ :=
  ((sales.filter (fun s => s.ITEMS == x)).map (fun s => s.QTY)).sum

/-- The summed revenue amount of the sale rows bearing one item name. -/
def sumAmount (sales : List SaleRow) (x : String) : ℚ :=
  ((sales.filter (fun s => s.ITEMS == x)).map (fun s => s.AMOUNT)).sum

/-- The summed profit of the sale rows bearing one item name. -/
def sumProfit (sales : List SaleRow) (x : String) : ℚ :=
  ((sales.filter (fun s => s.ITEMS == x)).map (fun s => s.PROFIT)).sum

/-- Modelled from the spec: the aggregated entry of one item name — its
summed quantity, revenue and profit over the sale rows bearing it. -/
def itemAggFor (sales : List SaleRow) (x : String) : ItemAgg :=
  { ITEMS := x, QTY := sumQty sales x, AMOUNT := sumAmount sales x,
    PROFIT := sumProfit sales x }

/-- Modelled from the spec: the per-item aggregation of a sale record set,
one entry per distinct item name, in first-seen order. -/
def groupItems (sales : List SaleRow) : List ItemAgg :=
  (distinctItems sales).map (itemAggFor sales)

/-- Stable descending insertion on index-tagged aggregates: the incoming
element passes the entries of strictly larger revenue and stops before the
first entry whose revenue is not larger, so among equal revenues the element
inserted earlier (the one first encountered) stays first. -/
def insertByRev (x : Nat × ItemAgg) :
    List (Nat × ItemAgg) → List (Nat × ItemAgg)
  | [] => [x]
  | y :: ys =>
      if x.2.AMOUNT < y.2.AMOUNT then y :: insertByRev x ys else x :: y :: ys

/-- Stable insertion sort by revenue, descending. -/
def sortByRevDesc : List (Nat × ItemAgg) → List (Nat × ItemAgg)
  | [] => []
  | x :: xs => insertByRev x (sortByRevDesc xs)

/-- Modelled from the spec: top_items — the per-item aggregates tagged with
their first-seen position, stably sorted by revenue descending, the first N
kept. -/
def top_items (n : Nat) (sales : List SaleRow) : List ItemAgg :=
  ((sortByRevDesc (withIdx 0 (groupItems sales))).map Prod.snd).take n

/-- Report Data built from empty invoice and sale record sets: zero totals,
empty breakdowns and rankings, no growth. -/
def emptyReportData : ReportData :=
  { invoices :=
      { total_revenue := 0, total_transactions := 0, average_transaction := 0,
        total_vat := 0,
        payment_breakdown := { amounts := [], counts := [] },
        service_breakdown := { amounts := [], counts := [] } },
    sales := { top_items := [], category_performance := [] },
    growth := none }

/-- A Report Data value whose total revenue is negative: one refunded CASH
invoice of amount -1, so the payment breakdown sums to the total. -/
def negativeRevenueData : ReportData :=
  { invoices :=
      { total_revenue := -1, total_transactions := 1, average_transaction := -1,
        total_vat := 0,
        payment_breakdown := { amounts := [("CASH", -1)], counts := [("CASH", 1)] },
        service_breakdown := { amounts := [], counts := [] } },
    sales := { top_items := [], category_performance := [] },
    growth := none }

/-- The strict order the stable descending sort establishes on index-tagged
aggregates: strictly larger revenue first, equal revenues by smaller original
index. -/
def lexGT (a b : Nat × ItemAgg) : Prop :=
  b.2.AMOUNT < a.2.AMOUNT ∨ (a.2.AMOUNT = b.2.AMOUNT ∧ a.1 < b.1)

theorem monthMatch_eq_true (y m : Nat) (od : Option PDate) :
    monthMatch y m od = true ↔ ∃ d, od = some d ∧ d.year = y ∧ d.month = m := by
  cases od with
  | none => simp [monthMatch]
  | some d => simp [monthMatch]

/-- C1: the month filters return exactly the rows whose day-first-parsed date
has the target year and month; unparseable dates are excluded without an
error (the filter is a total function) and the remaining rows keep their
source order (the result is a sublist of the source table). -/
theorem extract_month_filter_spec (inv : List InvoiceRow) (sal : List SaleRow)
    (y m : Nat) :
    (extract_invoices inv y m).Sublist inv
    ∧ (extract_sales sal y m).Sublist sal
    ∧ (∀ r, r ∈ extract_invoices inv y m ↔
        r ∈ inv ∧ ∃ d, parseDayFirst r.DATE = some d ∧ d.year = y ∧ d.month = m)
    ∧ (∀ r, r ∈ extract_sales sal y m ↔
        r ∈ sal ∧ ∃ d, parseDayFirst r.DATE = some d ∧ d.year = y ∧ d.month = m)
    ∧ (∀ r ∈ inv, parseDayFirst r.DATE = none → r ∉ extract_invoices inv y m)
    ∧ (∀ r ∈ sal, parseDayFirst r.DATE = none → r ∉ extract_sales sal y m)
    ∧ (∀ r t, extract_invoices (r :: t) y m =
        (match parseDayFirst r.DATE with
         | some d => if d.year = y ∧ d.month = m then [r] else []
         | none => []) ++ extract_invoices t y m) := by
  refine ⟨List.filter_sublist _, List.filter_sublist _, ?_, ?_, ?_, ?_, ?_⟩
  · intro r
    rw [extract_invoices, List.mem_filter, monthMatch_eq_true]
  · intro r
    rw [extract_sales, List.mem_filter, monthMatch_eq_true]
  · intro r _ hnone hmem
    have := (List.mem_filter.mp hmem).2
    rw [monthMatch_eq_true] at this
    obtain ⟨d, hd, -⟩ := this
    rw [hnone] at hd
    exact Option.noConfusion hd
  · intro r _ hnone hmem
    have := (List.mem_filter.mp hmem).2
    rw [monthMatch_eq_true] at this
    obtain ⟨d, hd, -⟩ := this
    rw [hnone] at hd
    exact Option.noConfusion hd
  · intro r t
    have hsplit : extract_invoices (r :: t) y m =
        (if monthMatch y m (parseDayFirst r.DATE) then [r] else [])
          ++ extract_invoices t y m := by
      rw [extract_invoices, List.filter_cons]
      split <;> simp [extract_invoices]
    rw [hsplit]
    congr 1
    cases hp : parseDayFirst r.DATE with
    | none => simp [monthMatch]
    | some d =>
        show (if monthMatch y m (some d) = true then [r] else [])
          = if d.year = y ∧ d.month = m then [r] else []
        by_cases hym : d.year = y ∧ d.month = m
        · simp [monthMatch, hym]
        · rw [if_neg hym]
          have : (d.year == y && d.month == m) = false := by
            rw [Bool.and_eq_false_iff]
            rcases not_and_or.mp hym with h | h
            · exact Or.inl (beq_eq_false_iff_ne.mpr h)
            · exact Or.inr (beq_eq_false_iff_ne.mpr h)
          simp [monthMatch, this]

/-- C3: export_table fails with the ToolMissingError kind (the RuntimeError
it raises) when the export utility cannot be located, with the ExportError
kind (CalledProcessError, or the CSV reader's parser error) when the process
exits non-zero or its output is unparseable, and returns the parsed table on
success. -/
theorem export_table_error_spec (readCsv : String → Option RawTable)
    (code : Nat) (out : String) :
    (∃ e, export_table .toolMissing readCsv = .error e ∧ isToolMissingError e = true)
    ∧ (code ≠ 0 → ∃ e, export_table (.exited code out) readCsv = .error e
        ∧ isExportError e = true)
    ∧ (readCsv out = none → ∃ e, export_table (.exited 0 out) readCsv = .error e
        ∧ isExportError e = true)
    ∧ (∀ t, readCsv out = some t → export_table (.exited 0 out) readCsv = .ok t) := by
  refine ⟨⟨_, rfl, rfl⟩, ?_, ?_, ?_⟩
  · intro h
    exact ⟨.calledProcessError code, by simp [export_table, h], rfl⟩
  · intro h
    exact ⟨.parserError "unparseable output", by simp [export_table, h], rfl⟩
  · intro t h
    simp [export_table, h]

/-- C4: average_transaction is total_revenue / total_transactions when there
is at least one transaction (and the denominator of that division is then
nonzero), and 0 when there are none. -/
theorem average_transaction_spec (invs : List InvoiceRow) :
    (total_transactions invs = 0 → average_transaction invs = 0)
    ∧ (0 < total_transactions invs →
        average_transaction invs = total_revenue invs / (total_transactions invs : ℚ)
        ∧ (total_transactions invs : ℚ) ≠ 0) := by
  constructor
  · intro h
    simp [average_transaction, h]
  · intro h
    have hne : total_transactions invs ≠ 0 := Nat.pos_iff_ne_zero.mp h
    constructor
    · simp [average_transaction, hne]
    · exact_mod_cast hne

/-- C10: the executive summary's growth arrow is the up arrow exactly for
strictly positive growth; zero and negative growth render the down arrow. -/
theorem growth_arrow_spec :
    (∀ g : ℚ, growthArrow g = "↑" ↔ 0 < g)
    ∧ growthArrow 0 = "↓"
    ∧ (∀ g : ℚ, g ≤ 0 → growthArrow g = "↓") := by
  have hne : ("↑" : String) ≠ "↓" := by decide
  refine ⟨?_, ?_, ?_⟩
  · intro g
    constructor
    · intro h
      by_contra hg
      rw [growthArrow, if_neg hg] at h
      exact hne h.symm
    · intro h
      rw [growthArrow, if_pos h]
  · rfl
  · intro g h
    rw [growthArrow, if_neg (not_lt.mpr h)]

/-- C6 (the code at the failing input): config.py defines no TOP_ITEMS_COUNT
attribute, so the renderer's read of config.TOP_ITEMS_COUNT in
create_top_items_section fails with AttributeError on every report input. -/
theorem top_items_count_missing_attribute :
    getattrConfig "TOP_ITEMS_COUNT" = .error (.attributeError "TOP_ITEMS_COUNT")
    ∧ ∀ rd : ReportData,
        create_top_items_section rd = .error (.attributeError "TOP_ITEMS_COUNT") := by
  constructor
  · rfl
  · intro rd
    rfl

/-- C9 (the code at the failing input): on the empty Report Data every
breakdown table is its header row alone and the summary holds the four zero
metric rows, but building the report stops with AttributeError in the
top-items section (config.py defines no TOP_ITEMS_COUNT), so the report does
not render without an exception. -/
theorem empty_report_sections :
    payment_data emptyReportData =
      [[.s "Payment Method", .s "Transactions", .s "Amount", .s "Percentage"]]
    ∧ service_data emptyReportData =
      [[.s "Service Type", .s "Orders", .s "Amount", .s "Percentage"]]
    ∧ category_data emptyReportData =
      [[.s "Category", .s "Items Sold", .s "Revenue", .s "Profit", .s "Margin %"]]
    ∧ items_data emptyReportData =
      [[.s "Rank", .s "Item", .s "Qty Sold", .s "Revenue", .s "Profit"]]
    ∧ summary_data emptyReportData =
      [[.s "Total Revenue", .q 0], [.s "Total Transactions", .n 0],
       [.s "Average Transaction", .q 0], [.s "Total VAT Collected", .q 0]]
    ∧ generate_report_tables emptyReportData =
        .error (.attributeError "TOP_ITEMS_COUNT") := by
  exact ⟨rfl, rfl, rfl, rfl, rfl, rfl⟩

/-- C2: the growth metric is none exactly when prior-month revenue is
unavailable or zero, otherwise the percentage change; the summary gains the
growth row exactly when the growth value is present and not None. -/
theorem growth_metric_spec (cur : ℚ) (prev : Option ℚ) (rd : ReportData) :
    (computeGrowth cur prev = none ↔ prev = none ∨ prev = some 0)
    ∧ (∀ p : ℚ, p ≠ 0 → computeGrowth cur (some p) = some ((cur - p) / p * 100))
    ∧ ((∃ row ∈ summary_data rd,
          row.head? = some (.s "Growth vs Previous Month")) ↔ rd.growth ≠ none) := by
  refine ⟨?_, ?_, ?_⟩
  · cases prev with
    | none => simp [computeGrowth]
    | some p =>
        by_cases hp : p = 0
        · simp [computeGrowth, hp]
        · simp [computeGrowth, hp]
  · intro p hp
    simp [computeGrowth, hp]
  · cases hg : rd.growth with
    | none =>
        simp only [summary_data, hg, List.append_nil, ne_eq, not_true_eq_false,
          iff_false, not_exists]
        intro row hrow
        obtain ⟨hmem, hhead⟩ := hrow
        have hne1 : ("Total Revenue" : String) ≠ "Growth vs Previous Month" := by decide
        have hne2 : ("Total Transactions" : String) ≠ "Growth vs Previous Month" := by decide
        have hne3 : ("Average Transaction" : String) ≠ "Growth vs Previous Month" := by decide
        have hne4 : ("Total VAT Collected" : String) ≠ "Growth vs Previous Month" := by decide
        fin_cases hmem <;> simp [hne1, hne2, hne3, hne4] at hhead
    | some g =>
        simp only [summary_data, hg, ne_eq, reduceCtorEq, not_false_eq_true, iff_true]
        exact ⟨[.s "Growth vs Previous Month", .q g, .s (growthArrow g)],
          by simp, rfl⟩

theorem maxByMtime_spec (f : DirEntry) (rest : List DirEntry) :
    maxByMtime f rest ∈ f :: rest
    ∧ ∀ x ∈ f :: rest, x.mtime ≤ (maxByMtime f rest).mtime := by
  induction rest generalizing f with
  | nil =>
      constructor
      · simp [maxByMtime]
      · intro x hx
        rw [List.mem_singleton] at hx
        simp [maxByMtime, hx]
  | cons b xs ih =>
      have hstep : maxByMtime f (b :: xs)
          = maxByMtime (if f.mtime < b.mtime then b else f) xs := by
        simp [maxByMtime]
      obtain ⟨ihm, ihge⟩ := ih (if f.mtime < b.mtime then b else f)
      constructor
      · rw [hstep]
        rcases List.mem_cons.mp ihm with h | h
        · rw [h]
          split
          · exact List.mem_cons_of_mem f (List.mem_cons_self b xs)
          · exact List.mem_cons_self f (b :: xs)
        · exact List.mem_cons_of_mem f (List.mem_cons_of_mem b h)
      · intro x hx
        rw [hstep]
        have hseed : ∀ z : DirEntry, z = (if f.mtime < b.mtime then b else f) →
            z.mtime ≤ (maxByMtime (if f.mtime < b.mtime then b else f) xs).mtime :=
          fun z hz => ihge z (hz ▸ List.mem_cons_self _ xs)
        rcases List.mem_cons.mp hx with h | h
        · rw [h]
          by_cases hfb : f.mtime < b.mtime
          · exact le_trans (le_of_lt hfb) (by rw [if_pos hfb] at hseed ⊢; exact hseed b rfl)
          · rw [if_neg hfb] at hseed ⊢
            exact hseed f rfl
        · rcases List.mem_cons.mp h with h2 | h2
          · rw [h2]
            by_cases hfb : f.mtime < b.mtime
            · rw [if_pos hfb] at hseed ⊢
              exact hseed b rfl
            · rw [if_neg hfb] at hseed ⊢
              exact le_trans (not_lt.mp hfb) (hseed f rfl)
          · exact ihge x (List.mem_cons_of_mem _ h2)

/-- C7: the backup locator fails when the base directory is missing, fails
when no immediate entry is a directory whose upper-cased name starts with
BACKUP, and otherwise returns a matching entry whose modification time is
maximal among the matching entries.  The model is a pure function of the
filesystem snapshot, reflecting that the source only reads. -/
theorem find_latest_backup_spec (fs : BackupFS) :
    (fs.baseExists = false →
      find_latest_backup fs = .error (.fileNotFound "Backup path not found"))
    ∧ (fs.baseExists = true →
        (fs.entries.filter (fun f => f.isDir && f.name.toUpper.startsWith "BACKUP") = []
          ↔ find_latest_backup fs = .error (.fileNotFound "No backup folders found")))
    ∧ (∀ e, find_latest_backup fs = .ok e →
        e ∈ fs.entries ∧ e.isDir = true ∧ e.name.toUpper.startsWith "BACKUP" = true
        ∧ ∀ e2 ∈ fs.entries, e2.isDir = true →
            e2.name.toUpper.startsWith "BACKUP" = true → e2.mtime ≤ e.mtime)
    ∧ (fs.baseExists = true →
        fs.entries.filter (fun f => f.isDir && f.name.toUpper.startsWith "BACKUP") ≠ []
        → ∃ e, find_latest_backup fs = .ok e) := by
  refine ⟨?_, ?_, ?_, ?_⟩
  · intro h
    simp [find_latest_backup, h]
  · intro h
    cases hl : fs.entries.filter (fun f => f.isDir && f.name.toUpper.startsWith "BACKUP") with
    | nil => simp [find_latest_backup, h, hl]
    | cons a l => simp [find_latest_backup, h, hl]
  · intro e he
    rw [find_latest_backup] at he
    by_cases h : fs.baseExists
    · rw [if_neg (by simp [h])] at he
      cases hl : fs.entries.filter (fun f => f.isDir && f.name.toUpper.startsWith "BACKUP") with
      | nil => rw [hl] at he; exact Except.noConfusion he
      | cons a l =>
          rw [hl] at he
          have hmax := maxByMtime_spec a l
          have he' : maxByMtime a l = e := by simpa using he
          have hmem : e ∈ fs.entries.filter (fun f => f.isDir && f.name.toUpper.startsWith "BACKUP") := by
            rw [hl, ← he']
            exact hmax.1
          have hpred := List.mem_filter.mp hmem
          have hd : e.isDir = true ∧ e.name.toUpper.startsWith "BACKUP" = true := by
            have := hpred.2
            rwa [Bool.and_eq_true] at this
          refine ⟨hpred.1, hd.1, hd.2, ?_⟩
          intro e2 he2 hdir hsw
          have he2f : e2 ∈ fs.entries.filter (fun f => f.isDir && f.name.toUpper.startsWith "BACKUP") := by
            rw [List.mem_filter]
            exact ⟨he2, by rw [Bool.and_eq_true]; exact ⟨hdir, hsw⟩⟩
          rw [hl] at he2f
          rw [← he']
          exact hmax.2 e2 he2f
    · rw [if_pos (by simp [h])] at he
      exact Except.noConfusion he
  · intro h hne
    rw [find_latest_backup, if_neg (by simp [h])]
    cases hl : fs.entries.filter (fun f => f.isDir && f.name.toUpper.startsWith "BACKUP") with
    | nil => exact absurd hl hne
    | cons a l => exact ⟨maxByMtime a l, rfl⟩

/-- C8 counterexample: at a negative total revenue the rendered percentage
cell is 0 — the code guards on total_amount > 0 — while the claim's ratio
amount / total_revenue * 100 equals 100 there, so the percentage does not
equal that ratio and 0 is produced at a denominator that is not zero. -/
theorem percentage_negative_total_counterexample :
    payment_data negativeRevenueData =
      [[.s "Payment Method", .s "Transactions", .s "Amount", .s "Percentage"],
       [.s "CASH", .n 1, .q (-1), .q 0]]
    ∧ ((-1 : ℚ) / (-1) * 100 = 100)
    ∧ ((0 : ℚ) ≠ 100)
    ∧ negativeRevenueData.invoices.total_revenue ≠ 0 := by
  refine ⟨?_, by norm_num, by norm_num, by norm_num [negativeRevenueData]⟩
  have hneg : ¬((-1 : ℚ) > 0) := by norm_num
  simp [payment_data, negativeRevenueData, percentOfTotal, hneg, lookupCount]

/-- C8 amended: each percentage column is derived at render time from sums
already present in Report Data; a ratio equals numerator / denominator * 100
when its denominator is strictly positive and is defined as 0 when the
denominator is not positive — in particular when it is 0 — so no division by
zero occurs. -/
theorem percentage_guard_spec (rd : ReportData) (t a : ℚ) (cat : CatAgg) :
    (0 < t → percentOfTotal t a = a / t * 100)
    ∧ (t ≤ 0 → percentOfTotal t a = 0)
    ∧ percentOfTotal 0 a = 0
    ∧ (0 < cat.AMOUNT → category_margin cat = cat.PROFIT / cat.AMOUNT * 100)
    ∧ (cat.AMOUNT ≤ 0 → category_margin cat = 0)
    ∧ (∀ row ∈ (payment_data rd).tail,
        ∃ p ∈ rd.invoices.payment_breakdown.amounts,
          row = [.s p.1, .n (lookupCount rd.invoices.payment_breakdown.counts p.1),
                 .q p.2, .q (percentOfTotal rd.invoices.total_revenue p.2)])
    ∧ (∀ row ∈ (service_data rd).tail,
        ∃ p ∈ rd.invoices.service_breakdown.amounts,
          row = [.s p.1, .n (lookupCount rd.invoices.service_breakdown.counts p.1),
                 .q p.2, .q (percentOfTotal rd.invoices.total_revenue p.2)])
    ∧ (∀ row ∈ (category_data rd).tail,
        ∃ c ∈ rd.sales.category_performance,
          row = [.s c.CATOGERY, .q c.QTY, .q c.AMOUNT, .q c.PROFIT,
                 .q (category_margin c)]) := by
  refine ⟨?_, ?_, ?_, ?_, ?_, ?_, ?_, ?_⟩
  · intro h
    rw [percentOfTotal, if_pos h]
  · intro h
    rw [percentOfTotal, if_neg (not_lt.mpr h)]
  · rw [percentOfTotal, if_neg (lt_irrefl 0)]
  · intro h
    rw [category_margin, if_pos h]
  · intro h
    rw [category_margin, if_neg (not_lt.mpr h)]
  · intro row hrow
    rw [payment_data, List.tail_cons] at hrow
    obtain ⟨p, hp, hrow⟩ := List.mem_map.mp hrow
    exact ⟨p, hp, hrow.symm⟩
  · intro row hrow
    rw [service_data, List.tail_cons] at hrow
    obtain ⟨p, hp, hrow⟩ := List.mem_map.mp hrow
    exact ⟨p, hp, hrow.symm⟩
  · intro row hrow
    rw [category_data, List.tail_cons] at hrow
    obtain ⟨c, hc, hrow⟩ := List.mem_map.mp hrow
    exact ⟨c, hc, hrow.symm⟩

theorem dedupFirst_mem (x : String) (l : List String) :
    x ∈ dedupFirst l ↔ x ∈ l := by
  induction l with
  | nil => simp [dedupFirst]
  | cons a l ih =>
      by_cases hxa : x = a
      · simp [dedupFirst, hxa]
      · simp [dedupFirst, List.mem_filter, hxa, ih]

theorem dedupFirst_nodup (l : List String) : (dedupFirst l).Nodup := by
  induction l with
  | nil => simp [dedupFirst]
  | cons a l ih =>
      rw [dedupFirst, List.nodup_cons]
      constructor
      · intro h
        have := (List.mem_filter.mp h).2
        simp at this
      · exact ih.filter _

theorem withIdx_map_snd (i : Nat) (l : List α) :
    (withIdx i l).map Prod.snd = l := by
  induction l generalizing i with
  | nil => simp [withIdx]
  | cons a l ih => simp [withIdx, ih]

theorem withIdx_length (i : Nat) (l : List α) :
    (withIdx i l).length = l.length := by
  induction l generalizing i with
  | nil => simp [withIdx]
  | cons a l ih => simp [withIdx, ih]

theorem withIdx_fst_ge (i : Nat) (l : List α) :
    ∀ p ∈ withIdx i l, i ≤ p.1 := by
  induction l generalizing i with
  | nil => intro p hp; simp [withIdx] at hp
  | cons a l ih =>
      intro p hp
      rw [withIdx, List.mem_cons] at hp
      rcases hp with h | h
      · rw [h]
      · exact le_trans (Nat.le_succ i) (ih (i + 1) p h)

theorem withIdx_pairwise (i : Nat) (l : List α) :
    (withIdx i l).Pairwise (fun a b => a.1 < b.1) := by
  induction l generalizing i with
  | nil => simp [withIdx]
  | cons a l ih =>
      rw [withIdx, List.pairwise_cons]
      constructor
      · intro p hp
        exact lt_of_lt_of_le (Nat.lt_succ_self i) (withIdx_fst_ge (i + 1) l p hp)
      · exact ih (i + 1)

theorem insertByRev_perm (x : Nat × ItemAgg) (l : List (Nat × ItemAgg)) :
    (insertByRev x l).Perm (x :: l) := by
  induction l with
  | nil => simp [insertByRev]
  | cons y ys ih =>
      rw [insertByRev]
      split
      · exact (ih.cons y).trans (List.Perm.swap x y ys)
      · exact List.Perm.refl _

theorem sortByRevDesc_perm (l : List (Nat × ItemAgg)) :
    (sortByRevDesc l).Perm l := by
  induction l with
  | nil => simp [sortByRevDesc]
  | cons x xs ih => exact (insertByRev_perm x _).trans (ih.cons x)

theorem insertByRev_pairwise (x : Nat × ItemAgg) (l : List (Nat × ItemAgg))
    (hl : l.Pairwise lexGT) (hx : ∀ y ∈ l, x.1 < y.1) :
    (insertByRev x l).Pairwise lexGT := by
  induction l with
  | nil => simp [insertByRev]
  | cons y ys ih =>
      obtain ⟨hy, hys⟩ := List.pairwise_cons.mp hl
      rw [insertByRev]
      split
      next h =>
        refine List.pairwise_cons.mpr ⟨?_, ih hys ?_⟩
        · intro z hz
          rcases List.mem_cons.mp ((insertByRev_perm x ys).mem_iff.mp hz) with hzx | hzys
          · rw [hzx]
            exact Or.inl h
          · exact hy z hzys
        · intro z hz
          exact hx z (List.mem_cons_of_mem y hz)
      next h =>
        have hyx : y.2.AMOUNT ≤ x.2.AMOUNT := not_lt.mp h
        refine List.pairwise_cons.mpr ⟨?_, hl⟩
        intro z hz
        rcases List.mem_cons.mp hz with hzy | hzys
        · rw [hzy]
          rcases lt_or_eq_of_le hyx with h1 | h1
          · exact Or.inl h1
          · exact Or.inr ⟨h1.symm, hx y (List.mem_cons_self y ys)⟩
        · have hyz := hy z hzys
          have hzy' : z.2.AMOUNT ≤ y.2.AMOUNT := by
            rcases hyz with h2 | h2
            · exact le_of_lt h2
            · exact le_of_eq h2.1.symm
          rcases lt_or_eq_of_le (le_trans hzy' hyx) with h2 | h2
          · exact Or.inl h2
          · exact Or.inr ⟨h2.symm, hx z (List.mem_cons_of_mem y hzys)⟩

theorem sortByRevDesc_pairwise (l : List (Nat × ItemAgg))
    (hl : l.Pairwise (fun a b => a.1 < b.1)) :
    (sortByRevDesc l).Pairwise lexGT := by
  induction l with
  | nil => simp [sortByRevDesc]
  | cons x xs ih =>
      obtain ⟨hx, hxs⟩ := List.pairwise_cons.mp hl
      rw [sortByRevDesc]
      exact insertByRev_pairwise x _ (ih hxs)
        (fun y hy => hx y ((sortByRevDesc_perm xs).subset hy))

/-- C5: top_items keeps min(N, distinct item count) entries, sorted by summed
revenue descending; the sorted index-tagged list orders equal revenues by
first-seen position (stability); every kept entry carries its item name and
the summed quantity, revenue and profit of the sale rows bearing that name;
and the distinct item names are exactly the names occurring, each once, in
first-seen order. -/
theorem top_items_spec (n : Nat) (sales : List SaleRow) :
    (top_items n sales).length = min n (distinctItems sales).length
    ∧ (distinctItems sales).Nodup
    ∧ (∀ s ∈ sales, s.ITEMS ∈ distinctItems sales)
    ∧ (∀ x ∈ distinctItems sales, ∃ s ∈ sales, s.ITEMS = x)
    ∧ (top_items n sales).Pairwise (fun a b => b.AMOUNT ≤ a.AMOUNT)
    ∧ (sortByRevDesc (withIdx 0 (groupItems sales))).Pairwise
        (fun a b => a.2.AMOUNT = b.2.AMOUNT → a.1 < b.1)
    ∧ (∀ g ∈ top_items n sales,
        g.QTY = sumQty sales g.ITEMS ∧ g.AMOUNT = sumAmount sales g.ITEMS
        ∧ g.PROFIT = sumProfit sales g.ITEMS ∧ g.ITEMS ∈ distinctItems sales) := by
  have hpair : (sortByRevDesc (withIdx 0 (groupItems sales))).Pairwise lexGT :=
    sortByRevDesc_pairwise _ (withIdx_pairwise 0 _)
  refine ⟨?_, dedupFirst_nodup _, ?_, ?_, ?_, ?_, ?_⟩
  · rw [top_items, List.length_take, List.length_map,
      (sortByRevDesc_perm _).length_eq, withIdx_length, groupItems,
      List.length_map]
  · intro s hs
    rw [distinctItems, dedupFirst_mem]
    exact List.mem_map.mpr ⟨s, hs, rfl⟩
  · intro x hx
    rw [distinctItems, dedupFirst_mem] at hx
    obtain ⟨s, hs, hsx⟩ := List.mem_map.mp hx
    exact ⟨s, hs, hsx⟩
  · rw [top_items]
    refine List.Pairwise.sublist (List.take_sublist n _) ?_
    rw [List.pairwise_map]
    refine hpair.imp ?_
    intro a b hab
    rcases hab with h | h
    · exact le_of_lt h
    · exact le_of_eq h.1.symm
  · refine hpair.imp ?_
    intro a b hab heq
    rcases hab with h | h
    · exact absurd heq (ne_of_gt h)
    · exact h.2
  · intro g hg
    have hg1 : g ∈ (sortByRevDesc (withIdx 0 (groupItems sales))).map Prod.snd :=
      List.take_subset n _ hg
    obtain ⟨p, hp, hpg⟩ := List.mem_map.mp hg1
    have hp2 : p ∈ withIdx 0 (groupItems sales) := (sortByRevDesc_perm _).subset hp
    have hg2 : g ∈ groupItems sales := by
      rw [← withIdx_map_snd 0 (groupItems sales)]
      exact List.mem_map.mpr ⟨p, hp2, hpg⟩
    obtain ⟨x, hx, hgx⟩ := List.mem_map.mp hg2
    rw [← hgx]
    exact ⟨rfl, rfl, rfl, hx⟩
